import Mathlib

/-!
Shallow embedding of the in-memory analytics/anomaly-detection engine of the
DeWillemstad guest-management repository: the `AIAnalyticsEngine` class
(source file `src/unnamed/part_001`) and the `AdvancedChangeLogger` class
(source file `src/lib/advanced-change-logger.ts`).

Modelling conventions:
* JS numbers are modelled as `ℚ` (all arithmetic relevant to the claims is
  exact); timestamps (`Date.now()` milliseconds and ISO date strings, which
  the source only ever compares as dates) are modelled as `ℤ`.
* Environment-supplied nondeterminism (generated ids, `Date.now()`,
  `Math.random()`, memory probes, the external change-log collaborator) is
  passed in as explicit parameters.
* The free-form `description`/`rationale`/`prediction` strings built with
  `toFixed` float formatting, and the untyped `dataPoints` arrays, are not
  modelled: no claim depends on them.  The untyped `baseline`/`current`
  payloads of an anomaly are modelled by `MetricBag`, a record with one
  optional field per key that actually occurs in the source.
* The class fields (`insights`, `anomalies`, `recommendations`,
  `performanceMetrics`, `userBehaviorMetrics`, `systemHealthMetrics`,
  `currentSession`, `clickPath`) become explicit state records threaded
  through the operations.
-/

namespace DeWillemstad

/-- the `anomaly.type` in the source (string union). -/
inductive AnomalyType
  | performance_spike
  | error_burst
  | unusual_pattern
  | capacity_issue
  | user_behavior_anomaly
deriving DecidableEq, Repr

/-- severity levels used by insights and anomalies (string union). -/
inductive Severity
  | low
  | medium
  | high
  | critical
deriving DecidableEq, Repr

/-- the `PredictiveInsight.type` in the source (string union). -/
inductive InsightType
  | performance
  | behavior
  | system
  | optimization
deriving DecidableEq, Repr

/-- the `SmartRecommendation.category` in the source (string union). -/
inductive RecCategory
  | table_assignment
  | system_optimization
  | user_experience
  | performance
  | capacity_planning
deriving DecidableEq, Repr

/-- the `SmartRecommendation.priority` in the source (string union). -/
inductive RecPriority
  | low
  | medium
  | high
  | urgent
deriving DecidableEq, Repr

/-- implementation effort levels (string union). -/
inductive Effort
  | low
  | medium
  | high
deriving DecidableEq, Repr

/-- the `improving | stable | declining` trend labels of the dashboard. -/
inductive TrendLabel
  | improving
  | stable
  | declining
deriving DecidableEq, Repr

/-- The untyped (`any`) `baseline`/`current` payloads attached to anomalies:
one optional numeric field per key occurring at the `addAnomaly` call sites. -/
structure MetricBag where
  averageDuration : Option ℚ := none
  errorCount : Option ℚ := none
  errorPaths : Option ℚ := none
  offHoursUsage : Option ℚ := none
  memoryUsage : Option ℚ := none
  errorRate : Option ℚ := none
  trend : Option ℚ := none
  memoryTrend : Option ℚ := none
deriving DecidableEq, Repr

/-- the `AnomalyDetection` record of the source (the `description` string,
built with float formatting, is not modelled). -/
structure AnomalyDetection where
  id : String
  type : AnomalyType
  severity : Severity
  confidence : ℚ
  title : String
  detectedAt : ℤ
  affectedMetrics : List String
  baseline : MetricBag
  current : MetricBag
  deviation : ℚ
  suggestedActions : List String
  autoResolved : Bool
  resolvedAt : Option ℤ := none
deriving DecidableEq, Repr

/-- the caller-supplied part of an anomaly at an `addAnomaly` call site
(everything except the generated `id`, `detectedAt` and the
`autoResolved`/`resolvedAt` lifecycle fields). -/
structure AnomalyPayload where
  type : AnomalyType
  severity : Severity
  confidence : ℚ
  title : String
  affectedMetrics : List String
  baseline : MetricBag
  current : MetricBag
  deviation : ℚ
  suggestedActions : List String
deriving DecidableEq, Repr

/-- the `impact` record of a `PredictiveInsight`. -/
structure InsightImpact where
  performance : Option ℚ := none
  efficiency : Option ℚ := none
  userExperience : Option ℚ := none
  systemStability : Option ℚ := none
deriving DecidableEq, Repr

/-- the `PredictiveInsight` record of the source (formatted strings and the
untyped `dataPoints` array are not modelled). -/
structure PredictiveInsight where
  id : String
  type : InsightType
  severity : Severity
  confidence : ℚ
  title : String
  recommendedActions : List String
  timeframe : String
  impact : InsightImpact
  createdAt : ℤ
  expiresAt : ℤ
deriving DecidableEq, Repr

/-- the caller-supplied part of an insight at an `addInsight` call site. -/
structure InsightPayload where
  type : InsightType
  severity : Severity
  confidence : ℚ
  title : String
  recommendedActions : List String
  timeframe : String
  impact : InsightImpact
deriving DecidableEq, Repr

/-- the `estimatedImpact`/`actualImpact` record of a `SmartRecommendation`. -/
structure RecImpact where
  efficiency : Option ℚ := none
  performance : Option ℚ := none
  userSatisfaction : Option ℚ := none
  resourceUtilization : Option ℚ := none
  systemStability : Option ℚ := none
  userExperience : Option ℚ := none
  success : Option Bool := none
deriving DecidableEq, Repr

/-- the `SmartRecommendation` record of the source (formatted strings are not
modelled). -/
structure SmartRecommendation where
  id : String
  category : RecCategory
  priority : RecPriority
  title : String
  implementationEffort : Effort
  estimatedImpact : RecImpact
  actionSteps : List String
  prerequisites : List String
  risks : List String
  createdAt : ℤ
  validUntil : ℤ
  implemented : Bool
  implementedAt : Option ℤ := none
  actualImpact : Option RecImpact := none
deriving DecidableEq, Repr

/-- the caller-supplied part of a recommendation at an `addRecommendation`
call site. -/
structure RecPayload where
  category : RecCategory
  priority : RecPriority
  title : String
  implementationEffort : Effort
  estimatedImpact : RecImpact
  actionSteps : List String
  prerequisites : List String
  risks : List String
deriving DecidableEq, Repr

/-! ### Metric series records of `AdvancedChangeLogger` -/

/-- the `PerformanceMetrics` sample of the source. -/
structure PerformanceMetrics where
  operationId : String
  operation : String
  startTime : ℚ
  endTime : Option ℚ := none
  duration : Option ℚ := none
  success : Bool
  errorType : Option String := none
  resourcesAffected : ℚ
  memoryUsage : Option ℚ := none
deriving DecidableEq, Repr

/-- the `deviceInfo` record of a behavior sample. -/
structure DeviceInfo where
  userAgent : String
  viewportWidth : ℚ
  viewportHeight : ℚ
  connection : Option String := none
deriving DecidableEq, Repr

/-- the `UserBehaviorMetrics` sample of the source. -/
structure UserBehaviorMetrics where
  sessionId : String
  timestamp : ℤ
  action : String
  duration : ℚ
  clickPath : List String
  errorEncountered : Bool
  deviceInfo : DeviceInfo
deriving DecidableEq, Repr

/-- the `SystemHealthMetrics` snapshot of the source. -/
structure SystemHealthMetrics where
  timestamp : ℤ
  memoryUsage : ℚ
  activeUsers : ℚ
  operationsPerMinute : ℚ
  errorRate : ℚ
  averageResponseTime : ℚ
  databaseConnections : ℚ
  cacheHitRate : ℚ
deriving DecidableEq, Repr

/-! ### Aggregator output records (`getPerformanceAnalytics`,
`getUserBehaviorAnalytics`, `getSystemHealthAnalytics`) -/

/-- one `(pattern, count)` entry of `errorPatterns`. -/
structure ErrorPattern where
  pattern : String
  count : ℚ
deriving DecidableEq, Repr

/-- one `(operation, count)` entry of `operationFrequency`. -/
structure OperationFreq where
  operation : String
  count : ℚ
deriving DecidableEq, Repr

/-- one hourly bucket of `performanceTrends`. -/
structure PerfTrendBucket where
  hour : String
  averageDuration : ℚ
  operationCount : ℚ
  errorRate : ℚ
deriving DecidableEq, Repr

/-- the `getPerformanceAnalytics()` result shape. -/
structure PerformanceAnalytics where
  totalOperations : ℚ
  successRate : ℚ
  averageDuration : ℚ
  slowestOperations : List PerformanceMetrics
  errorPatterns : List ErrorPattern
  operationFrequency : List OperationFreq
  performanceTrends : List PerfTrendBucket
deriving DecidableEq, Repr

/-- one `(action, count)` entry of `mostCommonActions`. -/
structure ActionCount where
  action : String
  count : ℚ
deriving DecidableEq, Repr

/-- one `(path, count)` entry of `errorPronePaths`. -/
structure PathCount where
  path : String
  count : ℚ
deriving DecidableEq, Repr

/-- one `(device, count)` entry of `deviceBreakdown`. -/
structure DeviceCount where
  device : String
  count : ℚ
deriving DecidableEq, Repr

/-- one `(hour, count)` entry of `peakUsageTimes` (`hour` comes from
`Number.parseInt`). -/
structure HourCount where
  hour : ℤ
  count : ℚ
deriving DecidableEq, Repr

/-- the `getUserBehaviorAnalytics()` result shape. -/
structure UserBehaviorAnalytics where
  totalSessions : ℚ
  averageSessionDuration : ℚ
  mostCommonActions : List ActionCount
  errorPronePaths : List PathCount
  deviceBreakdown : List DeviceCount
  peakUsageTimes : List HourCount
deriving DecidableEq, Repr

/-- one health alert. -/
structure HealthAlert where
  critical : Bool
  message : String
deriving DecidableEq, Repr

/-- one entry of `resourceUsage` (`getResourceUsageTrends()`). -/
structure ResourceUsagePoint where
  timestamp : ℤ
  memoryUsage : ℚ
  operationsPerMinute : ℚ
  errorRate : ℚ
  responseTime : ℚ
deriving DecidableEq, Repr

/-- the `getSystemHealthAnalytics()` result shape; `currentHealth` is
`health[health.length - 1]`, hence `undefined` (here `none`) when no
snapshot exists. -/
structure SystemHealthAnalytics where
  currentHealth : Option SystemHealthMetrics
  healthTrends : List SystemHealthMetrics
  alerts : List HealthAlert
  resourceUsage : List ResourceUsagePoint
  performanceScore : ℚ
deriving DecidableEq, Repr

/-! ### Shared list helpers (JS `slice` idioms) -/

/-- JS `array.slice(-n)`: the trailing `n` elements (the whole array when it
is shorter than `n`). -/
def sliceLast (n : ℕ) (l : List α) : List α :=
  l.drop (l.length - n)

/-- the `if (arr.length > n) arr = arr.slice(-n)` retention idiom used by
`pruneAnomalies`, `pruneInsights`, `pruneRecommendations` (caps 100/50/30)
and `pruneMetrics` (cap 1000). -/
def pruneTo (n : ℕ) (l : List α) : List α :=
  if l.length > n then sliceLast n l else l

/-! ### AIAnalyticsEngine helper methods -/

/-- the loop body of `calculateTrendDirection`: number of strictly
increasing consecutive steps. -/
def countIncreases : List ℚ → ℕ
  | a :: b :: rest => (if a < b then 1 else 0) + countIncreases (b :: rest)
  | _ => 0

/-- the `AIAnalyticsEngine.calculateTrendDirection` (source lines 1043-1052):
`0` on fewer than two samples, otherwise
`(increases / (values.length - 1)) * 100`. -/
def calculateTrendDirection (values : List ℚ) : ℚ :=
  if values.length < 2 then 0
  else ((countIncreases values : ℚ) / ((values.length : ℚ) - 1)) * 100

/-- the `AIAnalyticsEngine.calculateTrendStatus` (source lines 1207-1220),
parametrised by the field projection `f` (the source reads
`item[field] || 0`; callers below instantiate `f` accordingly). -/
def calculateTrendStatus (data : List α) (f : α → ℚ) (higherIsBetter : Bool) :
    TrendLabel :=
  if data.length < 3 then .stable
  else
    let trend := calculateTrendDirection ((sliceLast 3 data).map f)
    if trend > 10 then (if higherIsBetter then .improving else .declining)
    else if trend < -10 then (if higherIsBetter then .declining else .improving)
    else .stable

/-! ### Anomaly collection operations -/

/-- builds the `AnomalyDetection` object constructed at the top of
`addAnomaly`: generated `id`, `detectedAt = now`, `autoResolved = false`,
all remaining fields from the payload of the rule. -/
def mkAnomaly (p : AnomalyPayload) (id : String) (now : ℤ) : AnomalyDetection :=
  { id := id
    type := p.type
    severity := p.severity
    confidence := p.confidence
    title := p.title
    detectedAt := now
    affectedMetrics := p.affectedMetrics
    baseline := p.baseline
    current := p.current
    deviation := p.deviation
    suggestedActions := p.suggestedActions
    autoResolved := false
    resolvedAt := none }

/-- the `AIAnalyticsEngine.addAnomaly` (source lines 1086-1103): drop the new
anomaly when an unresolved anomaly with the same `(type, title)` already
exists, otherwise push it and prune to the 100 most recent. -/
def addAnomaly (s : List AnomalyDetection) (p : AnomalyPayload) (id : String)
    (now : ℤ) : List AnomalyDetection :=
  if ∃ a ∈ s, a.type = p.type ∧ a.title = p.title ∧ a.autoResolved = false then s
  else pruneTo 100 (s ++ [mkAnomaly p id now])

/-- the `AIAnalyticsEngine.resolveAnomaly` (source lines 1269-1275): find the
first anomaly with the given id (JS `Array.find`) and set
`autoResolved = true`, `resolvedAt = now`; no-op when the id is absent. -/
def resolveAnomaly : List AnomalyDetection → String → ℤ → List AnomalyDetection
  | [], _, _ => []
  | a :: rest, anomalyId, now =>
    if a.id = anomalyId then
      { a with autoResolved := true, resolvedAt := some now } :: rest
    else a :: resolveAnomaly rest anomalyId now

/-- the `AIAnalyticsEngine.cleanupOldAnomalies` (source lines 1143-1146): keep
anomalies detected within the last 24 hours or still unresolved. -/
def cleanupOldAnomalies (now : ℤ) (s : List AnomalyDetection) :
    List AnomalyDetection :=
  s.filter fun a => now - 24 * 60 * 60 * 1000 < a.detectedAt ∨ a.autoResolved = false

/-! ### Insight and recommendation collection operations -/

/-- builds the `PredictiveInsight` object constructed at the top of
`addInsight`: generated `id`, `createdAt = now`, `expiresAt` 24 hours later. -/
def mkInsight (p : InsightPayload) (id : String) (now : ℤ) : PredictiveInsight :=
  { id := id
    type := p.type
    severity := p.severity
    confidence := p.confidence
    title := p.title
    recommendedActions := p.recommendedActions
    timeframe := p.timeframe
    impact := p.impact
    createdAt := now
    expiresAt := now + 24 * 60 * 60 * 1000 }

/-- the `AIAnalyticsEngine.addInsight` (source lines 1105-1121): dedup by
`(type, title)` regardless of any lifecycle state, else push and prune to
the 50 most recent. -/
def addInsight (s : List PredictiveInsight) (p : InsightPayload) (id : String)
    (now : ℤ) : List PredictiveInsight :=
  if ∃ i ∈ s, i.type = p.type ∧ i.title = p.title then s
  else pruneTo 50 (s ++ [mkInsight p id now])

/-- the `AIAnalyticsEngine.cleanupOldInsights` (source lines 1148-1151): keep
insights whose `expiresAt` is still in the future. -/
def cleanupOldInsights (now : ℤ) (s : List PredictiveInsight) :
    List PredictiveInsight :=
  s.filter fun i => now < i.expiresAt

/-- builds the `SmartRecommendation` object constructed at the top of
`addRecommendation`: generated `id`, `createdAt = now`, `validUntil` 7 days
later, `implemented = false`. -/
def mkRecommendation (p : RecPayload) (id : String) (now : ℤ) :
    SmartRecommendation :=
  { id := id
    category := p.category
    priority := p.priority
    title := p.title
    implementationEffort := p.implementationEffort
    estimatedImpact := p.estimatedImpact
    actionSteps := p.actionSteps
    prerequisites := p.prerequisites
    risks := p.risks
    createdAt := now
    validUntil := now + 7 * 24 * 60 * 60 * 1000
    implemented := false
    implementedAt := none
    actualImpact := none }

/-- the `AIAnalyticsEngine.addRecommendation` (source lines 1123-1141): dedup by
`(category, title)` among not-yet-implemented recommendations, else push and
prune to the 30 most recent. -/
def addRecommendation (s : List SmartRecommendation) (p : RecPayload)
    (id : String) (now : ℤ) : List SmartRecommendation :=
  if ∃ r ∈ s, r.category = p.category ∧ r.title = p.title ∧ r.implemented = false
  then s
  else pruneTo 30 (s ++ [mkRecommendation p id now])

/-- the `AIAnalyticsEngine.markRecommendationImplemented` (source lines
1258-1267): find the first recommendation with the given id, set
`implemented = true`, `implementedAt = now`, and overwrite `actualImpact`
only when an impact argument was passed (JS truthiness guard). -/
def markRecommendationImplemented :
    List SmartRecommendation → String → ℤ → Option RecImpact →
      List SmartRecommendation
  | [], _, _, _ => []
  | r :: rest, recId, now, impact =>
    if r.id = recId then
      { r with
        implemented := true
        implementedAt := some now
        actualImpact := match impact with
          | some i => some i
          | none => r.actualImpact } :: rest
    else r :: markRecommendationImplemented rest recId now impact

/-- the `AIAnalyticsEngine.cleanupOldRecommendations` (source lines 1153-1156):
keep recommendations whose `validUntil` is still in the future. -/
def cleanupOldRecommendations (now : ℤ) (s : List SmartRecommendation) :
    List SmartRecommendation :=
  s.filter fun r => now < r.validUntil

/-! ### Anomaly-detection rules (`runAnomalyDetection` pass) -/

/-- payload of the performance-spike rule (source lines 173-192). -/
def spikePayload (averageDuration : ℚ) : AnomalyPayload :=
  { type := .performance_spike
    severity := if averageDuration > 5000 then .critical else .high
    confidence := 95
    title := "Performance Degradation Detected"
    affectedMetrics := ["response_time", "user_experience"]
    baseline := { averageDuration := some 800 }
    current := { averageDuration := some averageDuration }
    deviation := (averageDuration - 800) / 800 * 100
    suggestedActions :=
      ["Check system resources", "Analyze slow operations",
       "Consider scaling infrastructure", "Review recent changes"] }

/-- payload of the error-burst rule of `detectPerformanceAnomalies`
(source lines 195-215). -/
def errorBurstPayload (totalErrors : ℚ) : AnomalyPayload :=
  { type := .error_burst
    severity := if totalErrors > 50 then .critical else .high
    confidence := 90
    title := "Error Rate Spike Detected"
    affectedMetrics := ["error_rate", "system_stability"]
    baseline := { errorCount := some 2 }
    current := { errorCount := some totalErrors }
    deviation := (totalErrors - 2) / 2 * 100
    suggestedActions :=
      ["Investigate error patterns", "Check system logs",
       "Review recent deployments", "Monitor affected operations"] }

/-- payload of the degrading-performance-trend rule (source lines 223-242). -/
def perfTrendPayload (trendDirection : ℚ) : AnomalyPayload :=
  { type := .unusual_pattern
    severity := .medium
    confidence := 80
    title := "Performance Degradation Trend"
    affectedMetrics := ["performance_trend"]
    baseline := { trend := some 0 }
    current := { trend := some trendDirection }
    deviation := trendDirection
    suggestedActions :=
      ["Analyze performance bottlenecks", "Review system capacity",
       "Check for memory leaks", "Monitor resource usage"] }

/-- the `AIAnalyticsEngine.detectPerformanceAnomalies` (source lines 167-244);
`id0`/`id1`/`id2` stand for the three generated anomaly ids. -/
def detectPerformanceAnomalies (pd : Option PerformanceAnalytics)
    (id0 id1 id2 : String) (now : ℤ) (s : List AnomalyDetection) :
    List AnomalyDetection :=
  match pd with
  | none => s
  | some d =>
    let s1 :=
      if d.averageDuration > 2000 then
        addAnomaly s (spikePayload d.averageDuration) id0 now
      else s
    let totalErrors := (d.errorPatterns.map (·.count)).sum
    let s2 :=
      if d.errorPatterns.length > 0 ∧ totalErrors > 10 then
        addAnomaly s1 (errorBurstPayload totalErrors) id1 now
      else s1
    if d.performanceTrends.length > 5 then
      let trendDirection :=
        calculateTrendDirection
          ((sliceLast 5 d.performanceTrends).map (·.averageDuration))
      if trendDirection > 50 then
        addAnomaly s2 (perfTrendPayload trendDirection) id2 now
      else s2
    else s2

/-- payload of the error-prone-paths rule (source lines 252-270). -/
def behaviorPathsPayload (nPaths : ℚ) : AnomalyPayload :=
  { type := .user_behavior_anomaly
    severity := .medium
    confidence := 85
    title := "Multiple Error-Prone User Paths Detected"
    affectedMetrics := ["user_experience", "error_rate"]
    baseline := { errorPaths := some 1 }
    current := { errorPaths := some nPaths }
    deviation := (nPaths - 1) / 1 * 100
    suggestedActions :=
      ["Review UI/UX design", "Analyze user interaction flows",
       "Improve error handling", "Add user guidance"] }

/-- payload of the unusual-peak-hours rule (source lines 273-294). -/
def unusualPeaksPayload (offHoursUsage : ℚ) : AnomalyPayload :=
  { type := .unusual_pattern
    severity := .low
    confidence := 70
    title := "Unusual Peak Usage Times"
    affectedMetrics := ["usage_pattern"]
    baseline := { offHoursUsage := some 5 }
    current := { offHoursUsage := some offHoursUsage }
    deviation := 200
    suggestedActions :=
      ["Investigate off-hours activity", "Check for automated processes",
       "Review user access patterns", "Consider timezone differences"] }

/-- the `AIAnalyticsEngine.detectBehaviorAnomalies` (source lines 246-295). -/
def detectBehaviorAnomalies (bd : Option UserBehaviorAnalytics)
    (id0 id1 : String) (now : ℤ) (s : List AnomalyDetection) :
    List AnomalyDetection :=
  match bd with
  | none => s
  | some d =>
    let s1 :=
      if d.errorPronePaths.length > 3 then
        addAnomaly s (behaviorPathsPayload (d.errorPronePaths.length : ℚ)) id0 now
      else s
    if d.peakUsageTimes.length > 0 then
      let unusualPeaks := d.peakUsageTimes.filter fun p => p.hour < 6 ∨ p.hour > 22
      if unusualPeaks.length > 0 then
        addAnomaly s1 (unusualPeaksPayload ((unusualPeaks.map (·.count)).sum)) id1 now
      else s1
    else s1

/-- payload of the high-memory rule (source lines 303-321). -/
def highMemoryPayload (memoryUsage : ℚ) : AnomalyPayload :=
  { type := .capacity_issue
    severity := if memoryUsage > 95 then .critical else .high
    confidence := 95
    title := "High Memory Usage Detected"
    affectedMetrics := ["memory_usage", "system_performance"]
    baseline := { memoryUsage := some 50 }
    current := { memoryUsage := some memoryUsage }
    deviation := (memoryUsage - 50) / 50 * 100
    suggestedActions :=
      ["Clear memory caches", "Restart services if needed",
       "Check for memory leaks", "Scale resources"] }

/-- payload of the elevated-error-rate rule (source lines 324-342). -/
def highErrorRatePayload (errorRate : ℚ) : AnomalyPayload :=
  { type := .error_burst
    severity := if errorRate > 15 then .critical else .high
    confidence := 90
    title := "Elevated System Error Rate"
    affectedMetrics := ["error_rate", "system_reliability"]
    baseline := { errorRate := some 1 }
    current := { errorRate := some errorRate }
    deviation := (errorRate - 1) / 1 * 100
    suggestedActions :=
      ["Investigate error sources", "Check system logs",
       "Review recent changes", "Monitor critical services"] }

/-- payload of the memory-trend rule (source lines 347-365). -/
def memoryTrendPayload (memoryTrend : ℚ) : AnomalyPayload :=
  { type := .capacity_issue
    severity := .medium
    confidence := 75
    title := "Memory Usage Trending Upward"
    affectedMetrics := ["memory_trend"]
    baseline := { memoryTrend := some 0 }
    current := { memoryTrend := some memoryTrend }
    deviation := memoryTrend
    suggestedActions :=
      ["Monitor memory usage closely", "Check for memory leaks",
       "Plan capacity scaling", "Optimize memory usage"] }

/-- the `AIAnalyticsEngine.detectSystemHealthAnomalies` (source lines 297-367);
short-circuits unless both the payload and its `currentHealth` exist. -/
def detectSystemHealthAnomalies (hd : Option SystemHealthAnalytics)
    (id0 id1 id2 : String) (now : ℤ) (s : List AnomalyDetection) :
    List AnomalyDetection :=
  match hd with
  | none => s
  | some d =>
    match d.currentHealth with
    | none => s
    | some currentHealth =>
      let s1 :=
        if currentHealth.memoryUsage > 80 then
          addAnomaly s (highMemoryPayload currentHealth.memoryUsage) id0 now
        else s
      let s2 :=
        if currentHealth.errorRate > 5 then
          addAnomaly s1 (highErrorRatePayload currentHealth.errorRate) id1 now
        else s1
      if d.resourceUsage.length > 5 then
        let memoryTrend :=
          calculateTrendDirection
            ((sliceLast 5 d.resourceUsage).map (·.memoryUsage))
        if memoryTrend > 30 then
          addAnomaly s2 (memoryTrendPayload memoryTrend) id2 now
        else s2
      else s2

/-- the `AIAnalyticsEngine.runAnomalyDetection` (source lines 145-165): the
three detectors followed by `cleanupOldAnomalies`; `ids` supplies the up to
eight generated anomaly ids. -/
def runAnomalyDetection (pd : Option PerformanceAnalytics)
    (bd : Option UserBehaviorAnalytics) (hd : Option SystemHealthAnalytics)
    (ids : ℕ → String) (now : ℤ) (s : List AnomalyDetection) :
    List AnomalyDetection :=
  cleanupOldAnomalies now
    (detectSystemHealthAnomalies hd (ids 5) (ids 6) (ids 7) now
      (detectBehaviorAnomalies bd (ids 3) (ids 4) now
        (detectPerformanceAnomalies pd (ids 0) (ids 1) (ids 2) now s)))

/-! ### AdvancedChangeLogger (metrics collector) -/

/-- the fields of an external `ChangeLogEntry` actually read by
`recordSystemHealth` (the `change-logger` module itself is an external
collaborator of this subsystem). -/
structure ChangeLogEntryLite where
  timestamp : ℤ
  action_type : String
deriving DecidableEq, Repr

/-- the mutable series and session fields of `AdvancedChangeLogger`. -/
structure CollectorState where
  performanceMetrics : List PerformanceMetrics := []
  userBehaviorMetrics : List UserBehaviorMetrics := []
  systemHealthMetrics : List SystemHealthMetrics := []
  currentSession : String := ""
  clickPath : List String := []
deriving Repr

/-- the `AdvancedChangeLogger.pruneMetrics` (source lines 258-269): keep the
most recent 1000 entries of each of the three series. -/
def pruneMetrics (c : CollectorState) : CollectorState :=
  { c with
    performanceMetrics := pruneTo 1000 c.performanceMetrics
    userBehaviorMetrics := pruneTo 1000 c.userBehaviorMetrics
    systemHealthMetrics := pruneTo 1000 c.systemHealthMetrics }

/-- a thrown JS value: an `Error` instance (classified by its constructor
name) or any other thrown value. -/
inductive JsThrown
  | jsError (name message : String)
  | nonError
deriving DecidableEq, Repr

/-- the `error instanceof Error ? error.constructor.name : "UnknownError"`
classification in `logChangeWithPerformance`. -/
def classifyThrown : JsThrown → String
  | .jsError name _ => name
  | .nonError => "UnknownError"

/-- the `AdvancedChangeLogger.logChangeWithPerformance` (source lines 112-178),
the `recordOperation` decorator: run the wrapped work (already-evaluated
here as an `Except` value), append exactly one `PerformanceMetrics` sample
in the `finally` block, prune, and propagate the outcome of the work unchanged.
The generated operation id, the `performance.now()` readings and the memory
probes are passed in; the best-effort `logChange` append to the external
change-log collaborator is a side effect outside the modelled state. -/
def logChangeWithPerformance (c : CollectorState) (operation operationId : String)
    (startTime endTime startMemory endMemory resourcesAffected : ℚ)
    (work : Except JsThrown α) : Except JsThrown α × CollectorState :=
  let base : PerformanceMetrics :=
    { operationId := operationId
      operation := operation
      startTime := startTime
      endTime := some endTime
      duration := some (endTime - startTime)
      success := true
      errorType := none
      resourcesAffected := resourcesAffected
      memoryUsage := some (endMemory - startMemory) }
  let sample : PerformanceMetrics :=
    match work with
    | .ok _ => base
    | .error e => { base with success := false, errorType := some (classifyThrown e) }
  (work, pruneMetrics { c with performanceMetrics := c.performanceMetrics ++ [sample] })

/-- the `AdvancedChangeLogger.trackUserBehavior` (source lines 181-204):
append one behavior sample built from the current session and click path. -/
def trackUserBehavior (c : CollectorState) (action : String) (ctxDuration : ℚ)
    (ctxError : Bool) (device : DeviceInfo) (now : ℤ) : CollectorState :=
  let sample : UserBehaviorMetrics :=
    { sessionId := c.currentSession
      timestamp := now
      action := action
      duration := ctxDuration
      clickPath := c.clickPath
      errorEncountered := ctxError
      deviceInfo := device }
  pruneMetrics { c with userBehaviorMetrics := c.userBehaviorMetrics ++ [sample] }

/-- the `AdvancedChangeLogger.getAverageResponseTime` (source lines 245-251):
mean duration of the trailing 10 performance samples, `0` when none exist. -/
def getAverageResponseTime (c : CollectorState) : ℚ :=
  let recentMetrics := sliceLast 10 c.performanceMetrics
  if recentMetrics.length = 0 then 0
  else (recentMetrics.map (fun m => m.duration.getD 0)).sum / (recentMetrics.length : ℚ)

/-- the `AdvancedChangeLogger.recordSystemHealth` (source lines 213-231):
append one health snapshot derived from the trailing 1-minute window of the
external change history and the trailing 10 performance samples.  The
memory probe and the simulated cache-hit rate are passed in. -/
def recordSystemHealth (c : CollectorState) (now : ℤ)
    (changeHistory : List ChangeLogEntryLite) (memory cacheHit : ℚ) :
    CollectorState :=
  let recentChanges := changeHistory.filter fun e => now - 1 * 60 * 1000 < e.timestamp
  let recentErrors := recentChanges.filter fun e => e.action_type = "SYSTEM"
  let sample : SystemHealthMetrics :=
    { timestamp := now
      memoryUsage := memory
      activeUsers := 1
      operationsPerMinute := (recentChanges.length : ℚ)
      errorRate :=
        if recentChanges.length > 0 then
          ((recentErrors.length : ℚ) / (recentChanges.length : ℚ)) * 100
        else 0
      averageResponseTime := getAverageResponseTime c
      databaseConnections := 1
      cacheHitRate := cacheHit }
  pruneMetrics { c with systemHealthMetrics := c.systemHealthMetrics ++ [sample] }

/-- the `AdvancedChangeLogger.calculatePerformanceScore` (source lines 589-609):
linear penalties on the most recent health snapshot, clamped to `[0, 100]`;
`100` when no snapshot exists. -/
def calculatePerformanceScore (health : List SystemHealthMetrics) : ℚ :=
  match health.getLast? with
  | none => 100
  | some current =>
    let score0 : ℚ := 100
    let score1 := score0 - current.errorRate * 2
    let score2 :=
      if current.averageResponseTime > 500 then
        score1 - (current.averageResponseTime - 500) / 10
      else score1
    let score3 :=
      if current.memoryUsage > 50 then
        score2 - (current.memoryUsage - 50) / 2
      else score2
    max 0 (min 100 score3)

/-! ### Dashboard trend analysis (`getDashboard`) -/

/-- the four qualitative labels of `AIInsightsDashboard.trendAnalysis`. -/
structure TrendAnalysis where
  performance : TrendLabel
  efficiency : TrendLabel
  userSatisfaction : TrendLabel
  systemHealth : TrendLabel
deriving DecidableEq, Repr

/-- the `trendAnalysis` block of `AIAnalyticsEngine.getDashboard` (source
lines 1191-1196).  Field projections follow the `item[field] || 0` reads of
`calculateTrendStatus`: `performanceTrends` entries expose
`averageDuration`, `operationFrequency` entries expose `count`, and
`errorPronePaths` entries have no `length` property, so that read yields
`0` for every entry.  `systemHealth` bypasses `calculateTrendStatus`
entirely: it is `performanceScore > 80 ? "improving" : "declining"`. -/
def trendAnalysis (pd : PerformanceAnalytics) (bd : UserBehaviorAnalytics)
    (hd : SystemHealthAnalytics) : TrendAnalysis :=
  { performance := calculateTrendStatus pd.performanceTrends (·.averageDuration) false
    efficiency := calculateTrendStatus pd.operationFrequency (·.count) true
    userSatisfaction := calculateTrendStatus bd.errorPronePaths (fun _ => 0) false
    systemHealth := if hd.performanceScore > 80 then .improving else .declining }

/-! ### Operation-indexed state transitions (for the retention invariant) -/

/-- the three rule-output collections of `AIAnalyticsEngine`. -/
structure EngineState where
  insights : List PredictiveInsight := []
  anomalies : List AnomalyDetection := []
  recommendations : List SmartRecommendation := []
deriving Repr

/-- one engine operation.  Every mutation of the three collections in the
source goes through `addAnomaly`/`addInsight`/`addRecommendation` (the rule
passes), the two explicit lifecycle transitions, or a cleanup filter; the
insight- and recommendation-generation passes are sequences of
`insightAdd`/`recommendationAdd` steps followed by the matching cleanup. -/
inductive EngineOp
  | anomalyPass (pd : Option PerformanceAnalytics)
      (bd : Option UserBehaviorAnalytics) (hd : Option SystemHealthAnalytics)
      (ids : ℕ → String) (now : ℤ)
  | insightAdd (p : InsightPayload) (id : String) (now : ℤ)
  | insightCleanup (now : ℤ)
  | recommendationAdd (p : RecPayload) (id : String) (now : ℤ)
  | recommendationCleanup (now : ℤ)
  | resolve (id : String) (now : ℤ)
  | markImplemented (id : String) (now : ℤ) (impact : Option RecImpact)

/-- applies one engine operation to the engine state. -/
def applyEngineOp (s : EngineState) : EngineOp → EngineState
  | .anomalyPass pd bd hd ids now =>
    { s with anomalies := runAnomalyDetection pd bd hd ids now s.anomalies }
  | .insightAdd p id now => { s with insights := addInsight s.insights p id now }
  | .insightCleanup now => { s with insights := cleanupOldInsights now s.insights }
  | .recommendationAdd p id now =>
    { s with recommendations := addRecommendation s.recommendations p id now }
  | .recommendationCleanup now =>
    { s with recommendations := cleanupOldRecommendations now s.recommendations }
  | .resolve id now => { s with anomalies := resolveAnomaly s.anomalies id now }
  | .markImplemented id now impact =>
    { s with recommendations :=
        markRecommendationImplemented s.recommendations id now impact }

/-- one collector operation (the three ways a series is appended to). -/
inductive CollectorOp
  | record (operation operationId : String)
      (startTime endTime startMemory endMemory resourcesAffected : ℚ)
      (work : Except JsThrown Unit)
  | track (action : String) (ctxDuration : ℚ) (ctxError : Bool)
      (device : DeviceInfo) (now : ℤ)
  | health (now : ℤ) (changeHistory : List ChangeLogEntryLite) (memory cacheHit : ℚ)

/-- applies one collector operation to the collector state. -/
def applyCollectorOp (c : CollectorState) : CollectorOp → CollectorState
  | .record operation opId st et sm em res work =>
    (logChangeWithPerformance c operation opId st et sm em res work).2
  | .track action dur err device now => trackUserBehavior c action dur err device now
  | .health now history memory cacheHit => recordSystemHealth c now history memory cacheHit

/-- the bounded-retention invariant on the engine collections. -/
def EngineInv (s : EngineState) : Prop :=
  s.insights.length ≤ 50 ∧ s.anomalies.length ≤ 100 ∧ s.recommendations.length ≤ 30

/-- the bounded-retention invariant on the collector series. -/
def CollectorInv (c : CollectorState) : Prop :=
  c.performanceMetrics.length ≤ 1000 ∧ c.userBehaviorMetrics.length ≤ 1000 ∧
    c.systemHealthMetrics.length ≤ 1000

/-- the number of anomalies in a collection carrying a given
`(type, title)` pair. -/
def countMatching (l : List AnomalyDetection) (ty : AnomalyType) (ti : String) : ℕ :=
  l.countP fun a => decide (a.type = ty ∧ a.title = ti)

/-- the asymmetric trend-to-label mapping described by the specification:
a rising trend is `improving` for a higher-is-better metric and `declining`
for a lower-is-better one, a falling trend the opposite, `stable`
otherwise (with the same `±10` dead zone the code uses). -/
def labelOfTrend (trend : ℚ) (higherIsBetter : Bool) : TrendLabel :=
  if trend > 10 then (if higherIsBetter then .improving else .declining)
  else if trend < -10 then (if higherIsBetter then .declining else .improving)
  else .stable

/-- the reading of claim C7 under refutation: each of the four dashboard
trend labels is obtained by applying the asymmetric interpretation to the
trend-direction heuristic evaluated on some list of recent samples (the
polarity per metric is the one the dashboard uses: `averageDuration` and
error-proneness are lower-is-better, `count` throughput and system health
are higher-is-better). -/
def trendLabelsHeuristicDerived : Prop :=
  ∀ (pd : PerformanceAnalytics) (bd : UserBehaviorAnalytics)
    (hd : SystemHealthAnalytics),
    (∃ v : List ℚ, (trendAnalysis pd bd hd).performance =
      labelOfTrend (calculateTrendDirection v) false) ∧
    (∃ v : List ℚ, (trendAnalysis pd bd hd).efficiency =
      labelOfTrend (calculateTrendDirection v) true) ∧
    (∃ v : List ℚ, (trendAnalysis pd bd hd).userSatisfaction =
      labelOfTrend (calculateTrendDirection v) false) ∧
    (∃ v : List ℚ, (trendAnalysis pd bd hd).systemHealth =
      labelOfTrend (calculateTrendDirection v) true)

/-! ### Concrete example values (used by witnesses and counterexamples) -/

/-- a concrete unresolved anomaly with id `"a"`. -/
def sampleAnomaly : AnomalyDetection :=
  { id := "a"
    type := .capacity_issue
    severity := .high
    confidence := 95
    title := "High Memory Usage Detected"
    detectedAt := 0
    affectedMetrics := []
    baseline := {}
    current := {}
    deviation := 80
    suggestedActions := []
    autoResolved := false
    resolvedAt := none }

/-- a resource-usage point with the given timestamp and memory reading. -/
def resPoint (t : ℤ) (m : ℚ) : ResourceUsagePoint :=
  { timestamp := t
    memoryUsage := m
    operationsPerMinute := 0
    errorRate := 0
    responseTime := 0 }

/-- a performance-analytics input whose mean duration is 2500 ms and whose
other series are empty. -/
def perfInput2500 : PerformanceAnalytics :=
  { totalOperations := 10
    successRate := 100
    averageDuration := 2500
    slowestOperations := []
    errorPatterns := []
    operationFrequency := []
    performanceTrends := [] }

/-- a health snapshot with memory 90 MB and no errors. -/
def snapshot90 : SystemHealthMetrics :=
  { timestamp := 4
    memoryUsage := 90
    activeUsers := 1
    operationsPerMinute := 0
    errorRate := 0
    averageResponseTime := 0
    databaseConnections := 1
    cacheHitRate := 0 }

/-- a health-analytics input whose resource-usage series has exactly the
five snapshots `[50, 60, 70, 80, 90]`. -/
def healthFive : SystemHealthAnalytics :=
  { currentHealth := some snapshot90
    healthTrends := []
    alerts := []
    resourceUsage :=
      [resPoint 0 50, resPoint 1 60, resPoint 2 70, resPoint 3 80, resPoint 4 90]
    performanceScore := 100 }

/-- a health-analytics input with six resource-usage snapshots whose
trailing five memory readings are `[50, 60, 70, 80, 90]`. -/
def healthSix : SystemHealthAnalytics :=
  { currentHealth := some snapshot90
    healthTrends := []
    alerts := []
    resourceUsage :=
      [resPoint 0 40, resPoint 1 50, resPoint 2 60, resPoint 3 70,
       resPoint 4 80, resPoint 5 90]
    performanceScore := 100 }

/-- a health snapshot with 10% error rate, 600 ms response time and 60 MB
memory (used to evaluate the performance-score formula). -/
def snapshotLoaded : SystemHealthMetrics :=
  { timestamp := 0
    memoryUsage := 60
    activeUsers := 1
    operationsPerMinute := 5
    errorRate := 10
    averageResponseTime := 600
    databaseConnections := 1
    cacheHitRate := 50 }

/-- an empty performance-analytics input. -/
def emptyPerf : PerformanceAnalytics :=
  { totalOperations := 0
    successRate := 0
    averageDuration := 0
    slowestOperations := []
    errorPatterns := []
    operationFrequency := []
    performanceTrends := [] }

/-- an empty behavior-analytics input. -/
def emptyBehavior : UserBehaviorAnalytics :=
  { totalSessions := 0
    averageSessionDuration := 0
    mostCommonActions := []
    errorPronePaths := []
    deviceBreakdown := []
    peakUsageTimes := [] }

/-- a health-analytics input with no snapshots and a performance score of
50 (not above the 80 threshold). -/
def healthScore50 : SystemHealthAnalytics :=
  { currentHealth := none
    healthTrends := []
    alerts := []
    resourceUsage := []
    performanceScore := 50 }

/-! ### Shared helper lemmas -/

theorem length_pruneTo (n : ℕ) (l : List α) :
    (pruneTo n l).length = min l.length n := by
  unfold pruneTo sliceLast
  split_ifs with h
  · simp only [List.length_drop]
    omega
  · omega

theorem pruneTo_eq_self {n : ℕ} {l : List α} (h : l.length ≤ n) :
    pruneTo n l = l := by
  unfold pruneTo
  simp [Nat.not_lt.mpr h]

theorem take_append_pruneTo (n : ℕ) (l : List α) :
    l.take (l.length - n) ++ pruneTo n l = l := by
  unfold pruneTo sliceLast
  split_ifs with h
  · exact List.take_append_drop _ l
  · rw [Nat.sub_eq_zero_of_le (Nat.not_lt.mp h)]
    simp

theorem pruneTo_append_last {n : ℕ} (hn : 1 ≤ n) (l : List α) (a : α) :
    pruneTo n (l ++ [a]) = l.drop (l.length + 1 - n) ++ [a] := by
  unfold pruneTo sliceLast
  split_ifs with h
  · rw [List.length_append, List.length_singleton,
      List.drop_append_of_le_length (by omega)]
  · rw [List.length_append, List.length_singleton] at h
    rw [Nat.sub_eq_zero_of_le (by omega)]
    simp

theorem countIncreases_le (l : List ℚ) : countIncreases l ≤ l.length - 1 := by
  induction l with
  | nil => simp [countIncreases]
  | cons a rest ih =>
    match rest with
    | [] => simp [countIncreases]
    | b :: rest =>
      have := ih
      unfold countIncreases
      simp only [List.length_cons] at *
      split_ifs <;> omega

theorem trendDirection_nonneg (values : List ℚ) :
    0 ≤ calculateTrendDirection values := by
  unfold calculateTrendDirection
  split_ifs with h
  · exact le_refl 0
  · push_neg at h
    have hden : (0:ℚ) ≤ (values.length : ℚ) - 1 := by
      have : (2:ℚ) ≤ (values.length : ℚ) := by exact_mod_cast h
      linarith
    positivity

theorem trendDirection_le_100 (values : List ℚ) :
    calculateTrendDirection values ≤ 100 := by
  unfold calculateTrendDirection
  split_ifs with h
  · norm_num
  · push_neg at h
    have hlen : (2:ℚ) ≤ (values.length : ℚ) := by exact_mod_cast h
    have hc : (countIncreases values : ℚ) ≤ (values.length : ℚ) - 1 := by
      have h1 := countIncreases_le values
      have h2 : ((values.length - 1 : ℕ) : ℚ) = (values.length : ℚ) - 1 := by
        have : 1 ≤ values.length := by omega
        push_cast [this]
        ring
      calc (countIncreases values : ℚ) ≤ ((values.length - 1 : ℕ) : ℚ) := by
            exact_mod_cast h1
        _ = (values.length : ℚ) - 1 := h2
    have hpos : (0:ℚ) < (values.length : ℚ) - 1 := by linarith
    have : (countIncreases values : ℚ) / ((values.length : ℚ) - 1) ≤ 1 :=
      (div_le_one hpos).mpr hc
    nlinarith

theorem countIncreases_eq_zero_of_nonincreasing (l : List ℚ)
    (h : l.Chain' (fun a b => b ≤ a)) : countIncreases l = 0 := by
  induction l with
  | nil => rfl
  | cons a rest ih =>
    match rest, h with
    | [], _ => rfl
    | b :: rest, h =>
      have hab : b ≤ a := (List.chain'_cons.mp h).1
      have htail := ih (List.chain'_cons.mp h).2
      unfold countIncreases
      rw [if_neg (by exact not_lt.mpr hab), htail]

theorem trendStatus_false_ne_improving (data : List α) (f : α → ℚ) :
    calculateTrendStatus data f false ≠ .improving := by
  unfold calculateTrendStatus
  have h0 := trendDirection_nonneg ((sliceLast 3 data).map f)
  dsimp only
  split_ifs <;> simp_all <;> linarith

theorem trendStatus_true_ne_declining (data : List α) (f : α → ℚ) :
    calculateTrendStatus data f true ≠ .declining := by
  unfold calculateTrendStatus
  have h0 := trendDirection_nonneg ((sliceLast 3 data).map f)
  dsimp only
  split_ifs <;> simp_all <;> linarith

theorem resolveAnomaly_length (s : List AnomalyDetection) (anomalyId : String)
    (now : ℤ) : (resolveAnomaly s anomalyId now).length = s.length := by
  induction s with
  | nil => rfl
  | cons a rest ih =>
    unfold resolveAnomaly
    split_ifs <;> simp [ih]

theorem resolveAnomaly_of_not_mem {s : List AnomalyDetection}
    {anomalyId : String} (now : ℤ) (h : ∀ a ∈ s, a.id ≠ anomalyId) :
    resolveAnomaly s anomalyId now = s := by
  induction s with
  | nil => rfl
  | cons a rest ih =>
    unfold resolveAnomaly
    rw [if_neg (h a (List.mem_cons_self a rest)),
      ih fun b hb => h b (List.mem_cons_of_mem a hb)]

theorem resolveAnomaly_cons (a : AnomalyDetection) (rest : List AnomalyDetection)
    (anomalyId : String) (now : ℤ) :
    resolveAnomaly (a :: rest) anomalyId now =
      if a.id = anomalyId then
        { a with autoResolved := true, resolvedAt := some now } :: rest
      else a :: resolveAnomaly rest anomalyId now := rfl

theorem resolveAnomaly_idem (s : List AnomalyDetection) (anomalyId : String)
    (t1 t2 : ℤ) :
    resolveAnomaly (resolveAnomaly s anomalyId t1) anomalyId t2 =
      resolveAnomaly s anomalyId t2 := by
  induction s with
  | nil => rfl
  | cons a rest ih =>
    rw [resolveAnomaly_cons]
    split_ifs with h
    · rw [resolveAnomaly_cons, resolveAnomaly_cons]
      simp [h]
    · rw [resolveAnomaly_cons, resolveAnomaly_cons, if_neg h, if_neg h, ih]

theorem pruneTo_subset (n : ℕ) (l : List α) : pruneTo n l ⊆ l := by
  unfold pruneTo sliceLast
  split_ifs
  · exact List.drop_subset _ l
  · exact fun _ h => h

theorem mem_pruneTo_append {n : ℕ} (hn : 1 ≤ n) (l : List α) (a : α) :
    a ∈ pruneTo n (l ++ [a]) := by
  rw [pruneTo_append_last hn]
  simp

theorem addAnomaly_of_exists {s : List AnomalyDetection} {p : AnomalyPayload}
    (id : String) (now : ℤ)
    (h : ∃ a ∈ s, a.type = p.type ∧ a.title = p.title ∧ a.autoResolved = false) :
    addAnomaly s p id now = s := by
  unfold addAnomaly
  rw [if_pos h]

theorem addAnomaly_of_not_exists {s : List AnomalyDetection} {p : AnomalyPayload}
    (id : String) (now : ℤ)
    (h : ¬∃ a ∈ s, a.type = p.type ∧ a.title = p.title ∧ a.autoResolved = false) :
    addAnomaly s p id now = pruneTo 100 (s ++ [mkAnomaly p id now]) := by
  unfold addAnomaly
  rw [if_neg h]

theorem mem_addAnomaly {s : List AnomalyDetection} {p : AnomalyPayload}
    {id : String} {now : ℤ} {a : AnomalyDetection}
    (ha : a ∈ addAnomaly s p id now) : a ∈ s ∨ a = mkAnomaly p id now := by
  unfold addAnomaly at ha
  split_ifs at ha
  · exact Or.inl ha
  · have hmem := pruneTo_subset 100 _ ha
    rcases List.mem_append.mp hmem with h1 | h2
    · exact Or.inl h1
    · exact Or.inr (List.mem_singleton.mp h2)

theorem addAnomaly_preserves_not_match {s : List AnomalyDetection}
    {p : AnomalyPayload} {id : String} {now : ℤ} {ty : AnomalyType} {ti : String}
    (hp : p.title ≠ ti)
    (h : ∀ a ∈ s, ¬(a.type = ty ∧ a.title = ti ∧ a.autoResolved = false)) :
    ∀ a ∈ addAnomaly s p id now,
      ¬(a.type = ty ∧ a.title = ti ∧ a.autoResolved = false) := by
  intro a ha
  rcases mem_addAnomaly ha with h1 | h2
  · exact h a h1
  · subst h2
    rintro ⟨_, hti, _⟩
    exact hp hti

theorem addAnomaly_length_le {s : List AnomalyDetection} {p : AnomalyPayload}
    {id : String} {now : ℤ} (h : s.length ≤ 100) :
    (addAnomaly s p id now).length ≤ 100 := by
  unfold addAnomaly
  split_ifs
  · exact h
  · rw [length_pruneTo]
    omega

theorem addInsight_length_le {s : List PredictiveInsight} {p : InsightPayload}
    {id : String} {now : ℤ} (h : s.length ≤ 50) :
    (addInsight s p id now).length ≤ 50 := by
  unfold addInsight
  split_ifs
  · exact h
  · rw [length_pruneTo]
    omega

theorem addRecommendation_length_le {s : List SmartRecommendation}
    {p : RecPayload} {id : String} {now : ℤ} (h : s.length ≤ 30) :
    (addRecommendation s p id now).length ≤ 30 := by
  unfold addRecommendation
  split_ifs
  · exact h
  · rw [length_pruneTo]
    omega

theorem detectPerformanceAnomalies_length {s : List AnomalyDetection}
    (pd : Option PerformanceAnalytics) (id0 id1 id2 : String) (now : ℤ)
    (h : s.length ≤ 100) :
    (detectPerformanceAnomalies pd id0 id1 id2 now s).length ≤ 100 := by
  cases pd with
  | none => exact h
  | some d =>
    unfold detectPerformanceAnomalies
    dsimp only
    split_ifs <;> (repeat apply addAnomaly_length_le) <;> exact h

theorem detectBehaviorAnomalies_length {s : List AnomalyDetection}
    (bd : Option UserBehaviorAnalytics) (id0 id1 : String) (now : ℤ)
    (h : s.length ≤ 100) :
    (detectBehaviorAnomalies bd id0 id1 now s).length ≤ 100 := by
  cases bd with
  | none => exact h
  | some d =>
    unfold detectBehaviorAnomalies
    dsimp only
    split_ifs <;> (repeat apply addAnomaly_length_le) <;> exact h

theorem detectSystemHealthAnomalies_length {s : List AnomalyDetection}
    (hd : Option SystemHealthAnalytics) (id0 id1 id2 : String) (now : ℤ)
    (h : s.length ≤ 100) :
    (detectSystemHealthAnomalies hd id0 id1 id2 now s).length ≤ 100 := by
  cases hd with
  | none => exact h
  | some d =>
    unfold detectSystemHealthAnomalies
    dsimp only
    cases hch : d.currentHealth with
    | none => exact h
    | some ch =>
      dsimp only
      split_ifs <;> (repeat apply addAnomaly_length_le) <;> exact h

theorem runAnomalyDetection_length {s : List AnomalyDetection}
    (pd : Option PerformanceAnalytics) (bd : Option UserBehaviorAnalytics)
    (hd : Option SystemHealthAnalytics) (ids : ℕ → String) (now : ℤ)
    (h : s.length ≤ 100) :
    (runAnomalyDetection pd bd hd ids now s).length ≤ 100 := by
  unfold runAnomalyDetection cleanupOldAnomalies
  exact le_trans (List.length_filter_le _ _)
    (detectSystemHealthAnomalies_length hd _ _ _ now
      (detectBehaviorAnomalies_length bd _ _ now
        (detectPerformanceAnomalies_length pd _ _ _ now h)))

theorem markRecommendationImplemented_length (s : List SmartRecommendation)
    (recId : String) (now : ℤ) (impact : Option RecImpact) :
    (markRecommendationImplemented s recId now impact).length = s.length := by
  induction s with
  | nil => rfl
  | cons r rest ih =>
    unfold markRecommendationImplemented
    split_ifs <;> simp [ih]

theorem countIncreases_eq_zip (l : List ℚ) :
    countIncreases l = (l.zip l.tail).countP fun p => decide (p.1 < p.2) := by
  induction l with
  | nil => rfl
  | cons a rest ih =>
    match rest with
    | [] => rfl
    | b :: rest' =>
      unfold countIncreases
      simp only [List.tail_cons, List.zip_cons_cons, List.countP_cons, ih,
        decide_eq_true_eq]
      split_ifs <;> omega

theorem countIncreases_map_const (xs : List α) (q : ℚ) :
    countIncreases (xs.map fun _ => q) = 0 := by
  induction xs with
  | nil => rfl
  | cons a xs ih =>
    match xs with
    | [] => rfl
    | b :: xs' =>
      unfold countIncreases
      simp only [List.map_cons] at *
      rw [if_neg (lt_irrefl q)]
      simpa using ih

theorem trendDirection_eq_zero_of_nonincreasing (l : List ℚ)
    (h : l.Chain' (fun a b => b ≤ a)) : calculateTrendDirection l = 0 := by
  unfold calculateTrendDirection
  split_ifs
  · rfl
  · rw [countIncreases_eq_zero_of_nonincreasing l h]
    simp

theorem calculateTrendStatus_eq_labelOfTrend (data : List α) (f : α → ℚ)
    (higherIsBetter : Bool) :
    calculateTrendStatus data f higherIsBetter =
      if data.length < 3 then .stable
      else labelOfTrend
        (calculateTrendDirection ((sliceLast 3 data).map f)) higherIsBetter := rfl

theorem labelOfTrend_true_ne_declining {trend : ℚ} (h : 0 ≤ trend) :
    labelOfTrend trend true ≠ .declining := by
  unfold labelOfTrend
  split_ifs <;> simp_all <;> linarith

theorem mkAnomaly_title (p : AnomalyPayload) (id : String) (now : ℤ) :
    (mkAnomaly p id now).title = p.title := rfl

theorem highMemoryPayload_title (m : ℚ) :
    (highMemoryPayload m).title = "High Memory Usage Detected" := rfl

theorem highErrorRatePayload_title (e : ℚ) :
    (highErrorRatePayload e).title = "Elevated System Error Rate" := rfl

/-! ### Claim theorems -/

/-- C1: in any engine state that already contains an unresolved anomaly
with a given `(type, title)` pair, a rule firing that would add an anomaly
with the same type and title leaves the anomaly collection unchanged; and
starting from a state with no anomaly carrying that pair, two firings
before resolution leave exactly one anomaly with that pair. -/
theorem C1_anomaly_dedup (s : List AnomalyDetection) (p : AnomalyPayload)
    (id1 id2 : String) (t1 t2 : ℤ) :
    ((∃ a ∈ s, a.type = p.type ∧ a.title = p.title ∧ a.autoResolved = false) →
      addAnomaly s p id1 t1 = s) ∧
    ((∀ a ∈ s, ¬(a.type = p.type ∧ a.title = p.title)) →
      countMatching (addAnomaly (addAnomaly s p id1 t1) p id2 t2)
        p.type p.title = 1) := by
  constructor
  · intro h
    exact addAnomaly_of_exists id1 t1 h
  · intro h
    have hno : ¬∃ a ∈ s, a.type = p.type ∧ a.title = p.title ∧
        a.autoResolved = false := by
      rintro ⟨a, ha, hty, hti, _⟩
      exact h a ha ⟨hty, hti⟩
    have hs1 : addAnomaly s p id1 t1 =
        s.drop (s.length + 1 - 100) ++ [mkAnomaly p id1 t1] := by
      rw [addAnomaly_of_not_exists id1 t1 hno,
        pruneTo_append_last (by norm_num)]
    have hcount1 : countMatching (addAnomaly s p id1 t1) p.type p.title = 1 := by
      rw [hs1]
      unfold countMatching
      rw [List.countP_append]
      have hz : (s.drop (s.length + 1 - 100)).countP
          (fun a => decide (a.type = p.type ∧ a.title = p.title)) = 0 := by
        rw [List.countP_eq_zero]
        intro a ha
        have hmem : a ∈ s := List.drop_subset _ s ha
        simpa using h a hmem
      rw [hz]
      simp [mkAnomaly]
    have hmem : mkAnomaly p id1 t1 ∈ addAnomaly s p id1 t1 := by
      rw [hs1]
      exact List.mem_append_right _ (List.mem_singleton_self _)
    rw [addAnomaly_of_exists id2 t2 ⟨mkAnomaly p id1 t1, hmem, rfl, rfl, rfl⟩]
    exact hcount1

/-- C1 witness: from the empty collection, two firings of a rule with the
payload of the high-memory rule leave exactly one matching anomaly. -/
theorem C1_anomaly_dedup_witness :
    countMatching
      (addAnomaly (addAnomaly [] (highMemoryPayload 90) "i1" 1)
        (highMemoryPayload 90) "i2" 2)
      (highMemoryPayload 90).type (highMemoryPayload 90).title = 1 :=
  (C1_anomaly_dedup [] (highMemoryPayload 90) "i1" "i2" 1 2).2 (by simp)

/-- C3 counterexample: re-resolving an already-resolved anomaly at a later
timestamp is not a no-op — it overwrites `resolvedAt` with the newer
timestamp, so the state after the second call differs from the state after
the first. -/
theorem C3_counterexample :
    resolveAnomaly (resolveAnomaly [sampleAnomaly] "a" 1) "a" 2 ≠
      resolveAnomaly [sampleAnomaly] "a" 1 := by
  decide

/-- C3 (amended): `resolveAnomaly` on an absent id is a no-op; on a present
id it flips exactly the first matching anomaly to
`autoResolved = true, resolvedAt = now`, leaving every other entry
unchanged; re-resolving re-finds the same anomaly and merely overwrites
`resolvedAt` with the newer timestamp (so it coincides with a single
resolve at the second timestamp — no duplicate entries, nothing thrown);
and the collection length never changes. -/
theorem C3_resolve_transition (s : List AnomalyDetection) (anomalyId : String)
    (t1 t2 : ℤ) :
    ((∀ a ∈ s, a.id ≠ anomalyId) → resolveAnomaly s anomalyId t1 = s) ∧
    (∀ pre a post, s = pre ++ a :: post → (∀ b ∈ pre, b.id ≠ anomalyId) →
      a.id = anomalyId →
      resolveAnomaly s anomalyId t1 =
        pre ++ { a with autoResolved := true, resolvedAt := some t1 } :: post) ∧
    resolveAnomaly (resolveAnomaly s anomalyId t1) anomalyId t2 =
      resolveAnomaly s anomalyId t2 ∧
    (resolveAnomaly s anomalyId t1).length = s.length := by
  refine ⟨resolveAnomaly_of_not_mem t1, ?_, resolveAnomaly_idem s anomalyId t1 t2,
    resolveAnomaly_length s anomalyId t1⟩
  intro pre a post hs hpre ha
  subst hs
  induction pre with
  | nil =>
    simp only [List.nil_append]
    rw [resolveAnomaly_cons, if_pos ha]
  | cons b rest ih =>
    simp only [List.cons_append]
    rw [resolveAnomaly_cons, if_neg (hpre b (List.mem_cons_self b rest)),
      ih fun x hx => hpre x (List.mem_cons_of_mem b hx)]

/-- C3 witness: resolving the sample anomaly at time 5 sets its
`autoResolved` flag and `resolvedAt` timestamp. -/
theorem C3_resolve_transition_witness :
    resolveAnomaly [sampleAnomaly] "a" 5 =
      [{ sampleAnomaly with autoResolved := true, resolvedAt := some (5:ℤ) }] :=
  (C3_resolve_transition [sampleAnomaly] "a" 5 0).2.1 [] sampleAnomaly []
    rfl (by simp) rfl

/-- C6: on fewer than two samples the trend-direction heuristic returns 0;
on `n ≥ 2` samples it returns `100 × (number of consecutive strict
increases) / (n − 1)`, the consecutive increases being the pairs
`(v[i−1], v[i])` with `v[i−1] < v[i]`. -/
theorem C6_trend_direction_reference (values : List ℚ) :
    (2 ≤ values.length →
      calculateTrendDirection values =
        100 * (((values.zip values.tail).countP fun p => decide (p.1 < p.2) : ℕ) : ℚ) /
          ((values.length : ℚ) - 1)) ∧
    (values.length < 2 → calculateTrendDirection values = 0) := by
  constructor
  · intro h
    unfold calculateTrendDirection
    rw [if_neg (by omega), countIncreases_eq_zip]
    ring
  · intro h
    unfold calculateTrendDirection
    rw [if_pos h]

/-- C6 witness: on `[1, 2, 2]` the heuristic returns `100 × 1 / 2 = 50`. -/
theorem C6_trend_direction_reference_witness :
    2 ≤ ([1, 2, 2] : List ℚ).length ∧
      calculateTrendDirection [1, 2, 2] =
        100 * (((([1, 2, 2] : List ℚ).zip ([1, 2, 2] : List ℚ).tail).countP
            fun p => decide (p.1 < p.2) : ℕ) : ℚ) /
          ((([1, 2, 2] : List ℚ).length : ℚ) - 1) :=
  ⟨by decide, (C6_trend_direction_reference [1, 2, 2]).1 (by decide)⟩

/-- C8: with at least one health snapshot, the performance score is
`100 − 2·errorRate − max(0, (avgResponseTime − 500)/10) −
max(0, (memoryUsage − 50)/2)` over the most recent snapshot, clamped to
`[0, 100]`. -/
theorem C8_performance_score (health : List SystemHealthMetrics)
    (current : SystemHealthMetrics) (h : health.getLast? = some current) :
    calculatePerformanceScore health =
      max 0 (min 100
        (100 - 2 * current.errorRate -
          max 0 ((current.averageResponseTime - 500) / 10) -
          max 0 ((current.memoryUsage - 50) / 2))) := by
  unfold calculatePerformanceScore
  rw [h]
  dsimp only
  split_ifs with h1 h2 h3
  · rw [max_eq_right (by linarith : (0:ℚ) ≤ (current.averageResponseTime - 500) / 10),
      max_eq_right (by linarith : (0:ℚ) ≤ (current.memoryUsage - 50) / 2)]
    congr 1
    congr 1
    ring
  · rw [max_eq_left (by push_neg at h2; linarith :
        (current.averageResponseTime - 500) / 10 ≤ (0:ℚ)),
      max_eq_right (by linarith : (0:ℚ) ≤ (current.memoryUsage - 50) / 2)]
    congr 1
    congr 1
    ring
  · rw [max_eq_right (by linarith : (0:ℚ) ≤ (current.averageResponseTime - 500) / 10),
      max_eq_left (by push_neg at h1; linarith :
        (current.memoryUsage - 50) / 2 ≤ (0:ℚ))]
    congr 1
    congr 1
    ring
  · rw [max_eq_left (by push_neg at h3; linarith :
        (current.averageResponseTime - 500) / 10 ≤ (0:ℚ)),
      max_eq_left (by push_neg at h1; linarith :
        (current.memoryUsage - 50) / 2 ≤ (0:ℚ))]
    congr 1
    congr 1
    ring

/-- C8 witness: the formula evaluated on a single loaded snapshot
(10% errors, 600 ms, 60 MB). -/
theorem C8_performance_score_witness :
    calculatePerformanceScore [snapshotLoaded] =
      max 0 (min 100
        (100 - 2 * snapshotLoaded.errorRate -
          max 0 ((snapshotLoaded.averageResponseTime - 500) / 10) -
          max 0 ((snapshotLoaded.memoryUsage - 50) / 2))) :=
  C8_performance_score [snapshotLoaded] snapshotLoaded rfl

/-- C2: on a performance-analytics input with `averageDuration = 2500` (and
no other firing rule), one anomaly-detection run over a collection holding
no unresolved spike anomaly appends exactly one anomaly with
`type = performance_spike`, `severity = high` (2500 < 5000),
`confidence = 95`, `current.averageDuration = 2500`,
`baseline.averageDuration = 800` and `deviation = ((2500 − 800)/800) × 100`. -/
theorem C2_performance_spike (s : List AnomalyDetection) (id0 id1 id2 : String)
    (now : ℤ)
    (hnodup : ∀ a ∈ s, ¬(a.type = .performance_spike ∧
      a.title = "Performance Degradation Detected" ∧ a.autoResolved = false))
    (hlen : s.length < 100) :
    detectPerformanceAnomalies (some perfInput2500) id0 id1 id2 now s =
      s ++ [mkAnomaly (spikePayload 2500) id0 now] ∧
    (spikePayload 2500).type = .performance_spike ∧
    (spikePayload 2500).severity = .high ∧
    (spikePayload 2500).confidence = 95 ∧
    (spikePayload 2500).title = "Performance Degradation Detected" ∧
    (spikePayload 2500).current.averageDuration = some 2500 ∧
    (spikePayload 2500).baseline.averageDuration = some 800 ∧
    (spikePayload 2500).deviation = (2500 - 800) / 800 * 100 ∧
    (mkAnomaly (spikePayload 2500) id0 now).autoResolved = false := by
  refine ⟨?_, rfl, by decide, rfl, rfl, rfl, rfl, rfl, rfl⟩
  unfold detectPerformanceAnomalies
  dsimp only [perfInput2500]
  norm_num
  rw [addAnomaly_of_not_exists id0 now
    (by rintro ⟨a, ha, h1, h2, h3⟩; exact hnodup a ha ⟨h1, h2, h3⟩)]
  exact pruneTo_eq_self (by simp; omega)

/-- C2 witness: the spike scenario evaluated from the empty collection. -/
theorem C2_performance_spike_witness :
    detectPerformanceAnomalies (some perfInput2500) "i0" "i1" "i2" 7 [] =
      [mkAnomaly (spikePayload 2500) "i0" 7] ∧
    (spikePayload 2500).severity = .high ∧
    (spikePayload 2500).current.averageDuration = some 2500 ∧
    (spikePayload 2500).deviation = (2500 - 800) / 800 * 100 :=
  have h := C2_performance_spike [] "i0" "i1" "i2" 7 (by simp) (by norm_num)
  ⟨h.1, h.2.2.1, h.2.2.2.2.2.1, h.2.2.2.2.2.2.2.1⟩

/-- C4: the `recordOperation` decorator returns the outcome of the wrapped work
unchanged (success value or original failure, no translation and no
suppression) and appends exactly one performance sample, with
`success = true` on success and `success = false` plus its
classification as `errorType` on failure. -/
theorem C4_record_operation {α : Type} (c : CollectorState)
    (operation opId : String) (st et sm em res : ℚ) (work : Except JsThrown α)
    (h : c.performanceMetrics.length < 1000) :
    (logChangeWithPerformance c operation opId st et sm em res work).1 = work ∧
    ∃ m : PerformanceMetrics,
      (logChangeWithPerformance c operation opId st et sm em res
          work).2.performanceMetrics = c.performanceMetrics ++ [m] ∧
      m.success = work.isOk ∧
      m.errorType = (match work with
        | .ok _ => none
        | .error e => some (classifyThrown e)) ∧
      m.operation = operation ∧ m.operationId = opId ∧
      m.duration = some (et - st) ∧ m.startTime = st ∧ m.endTime = some et ∧
      m.memoryUsage = some (em - sm) ∧ m.resourcesAffected = res := by
  have hkeep : ∀ x : PerformanceMetrics,
      pruneTo 1000 (c.performanceMetrics ++ [x]) = c.performanceMetrics ++ [x] := by
    intro x
    apply pruneTo_eq_self
    simp only [List.length_append, List.length_singleton]
    omega
  cases work with
  | ok v =>
    exact ⟨rfl, _, hkeep _, rfl, rfl, rfl, rfl, rfl, rfl, rfl, rfl, rfl⟩
  | error e =>
    exact ⟨rfl, _, hkeep _, rfl, rfl, rfl, rfl, rfl, rfl, rfl, rfl, rfl⟩

/-- C4 witness: recording a failing operation from the empty collector
state re-raises the original `TypeError` and appends one failed sample. -/
theorem C4_record_operation_witness :
    (logChangeWithPerformance {} "saveGuest" "op1" 0 25 0 1 1
        (Except.error (JsThrown.jsError "TypeError" "boom") :
          Except JsThrown Unit)).1 =
      Except.error (JsThrown.jsError "TypeError" "boom") ∧
    ∃ m : PerformanceMetrics,
      (logChangeWithPerformance {} "saveGuest" "op1" 0 25 0 1 1
          (Except.error (JsThrown.jsError "TypeError" "boom") :
            Except JsThrown Unit)).2.performanceMetrics =
        ({} : CollectorState).performanceMetrics ++ [m] ∧
      m.success = (Except.error (JsThrown.jsError "TypeError" "boom") :
        Except JsThrown Unit).isOk ∧
      m.errorType = (match (Except.error (JsThrown.jsError "TypeError" "boom") :
          Except JsThrown Unit) with
        | .ok _ => none
        | .error e => some (classifyThrown e)) ∧
      m.operation = "saveGuest" ∧ m.operationId = "op1" ∧
      m.duration = some (25 - 0) ∧ m.startTime = 0 ∧ m.endTime = some 25 ∧
      m.memoryUsage = some (1 - 0) ∧ m.resourcesAffected = 1 :=
  C4_record_operation {} "saveGuest" "op1" 0 25 0 1 1
    (Except.error (JsThrown.jsError "TypeError" "boom")) (by decide)

/-- C5 counterexample: a resource-usage series of exactly the five
snapshots `[50, 60, 70, 80, 90]` satisfies the trailing-five
premise, yet the detection pass adds no `Memory Usage Trending Upward`
anomaly, because the rule requires strictly more than 5 snapshots. -/
theorem C5_counterexample :
    (sliceLast 5 healthFive.resourceUsage).map (·.memoryUsage) =
      [50, 60, 70, 80, 90] ∧
    countMatching
      (runAnomalyDetection none none (some healthFive) (fun _ => "h") 9 [])
      .capacity_issue "Memory Usage Trending Upward" = 0 := by
  constructor
  · decide
  · decide

/-- C5 (amended): when the resource-usage series has **more than five**
snapshots and the trailing five memory readings are `[50, 60, 70, 80, 90]`
(trend direction 100), the health-anomaly pass adds an unresolved
`capacity_issue` anomaly titled `Memory Usage Trending Upward` carrying
that trend (provided none is already pending); and for a constant or
decreasing trailing-five series the trend direction is ≤ 0 and that
anomaly is never added. -/
theorem C5_memory_trend (hd hd2 : SystemHealthAnalytics)
    (ch : SystemHealthMetrics) (id0 id1 id2 : String) (now : ℤ)
    (s s2 : List AnomalyDetection) :
    (hd.currentHealth = some ch →
      5 < hd.resourceUsage.length →
      (sliceLast 5 hd.resourceUsage).map (·.memoryUsage) = [50, 60, 70, 80, 90] →
      (∀ a ∈ s, ¬(a.type = .capacity_issue ∧
        a.title = "Memory Usage Trending Upward" ∧ a.autoResolved = false)) →
      ∃ a ∈ detectSystemHealthAnomalies (some hd) id0 id1 id2 now s,
        a.type = .capacity_issue ∧ a.title = "Memory Usage Trending Upward" ∧
        a.autoResolved = false ∧ a.current.memoryTrend = some 100 ∧
        a.deviation = 100) ∧
    ((((sliceLast 5 hd2.resourceUsage).map (·.memoryUsage)).Chain'
        (fun a b => b ≤ a)) →
      calculateTrendDirection
        ((sliceLast 5 hd2.resourceUsage).map (·.memoryUsage)) ≤ 0 ∧
      ∀ a ∈ detectSystemHealthAnomalies (some hd2) id0 id1 id2 now s2,
        a.title = "Memory Usage Trending Upward" → a ∈ s2) := by
  constructor
  · intro hch hlen htrail hnodup
    unfold detectSystemHealthAnomalies
    dsimp only
    rw [hch]
    dsimp only
    have hmt : calculateTrendDirection
        ((sliceLast 5 hd.resourceUsage).map (·.memoryUsage)) = 100 := by
      rw [htrail]
      norm_num [calculateTrendDirection, countIncreases]
    rw [hmt, if_pos hlen, if_pos (by norm_num : (100:ℚ) > 30)]
    have hfin : ∀ u : List AnomalyDetection,
        (∀ b ∈ u, ¬(b.type = AnomalyType.capacity_issue ∧
          b.title = "Memory Usage Trending Upward" ∧ b.autoResolved = false)) →
        ∃ a ∈ addAnomaly u (memoryTrendPayload 100) id2 now,
          a.type = .capacity_issue ∧ a.title = "Memory Usage Trending Upward" ∧
          a.autoResolved = false ∧ a.current.memoryTrend = some 100 ∧
          a.deviation = 100 := by
      intro u hu
      rw [addAnomaly_of_not_exists id2 now
        (by rintro ⟨b, hb, h1, h2, h3⟩; exact hu b hb ⟨h1, h2, h3⟩)]
      exact ⟨_, mem_pruneTo_append (by norm_num) _ _, rfl, rfl, rfl, rfl, rfl⟩
    by_cases c1 : ch.memoryUsage > 80 <;> by_cases c2 : ch.errorRate > 5
    · rw [if_pos c1, if_pos c2]
      exact hfin _ (addAnomaly_preserves_not_match
        (by rw [highErrorRatePayload_title]; decide)
        (addAnomaly_preserves_not_match
          (by rw [highMemoryPayload_title]; decide) hnodup))
    · rw [if_pos c1, if_neg c2]
      exact hfin _ (addAnomaly_preserves_not_match
        (by rw [highMemoryPayload_title]; decide) hnodup)
    · rw [if_neg c1, if_pos c2]
      exact hfin _ (addAnomaly_preserves_not_match
        (by rw [highErrorRatePayload_title]; decide) hnodup)
    · rw [if_neg c1, if_neg c2]
      exact hfin _ hnodup
  · intro hchain
    have hzero := trendDirection_eq_zero_of_nonincreasing _ hchain
    refine ⟨by rw [hzero], ?_⟩
    unfold detectSystemHealthAnomalies
    dsimp only
    cases hch2 : hd2.currentHealth with
    | none =>
      intro a ha _
      exact ha
    | some ch2 =>
      dsimp only
      rw [hzero, if_neg (by norm_num : ¬((0:ℚ) > 30)), ite_self]
      intro a ha hti
      split_ifs at ha with c1 c2 c3
      · rcases mem_addAnomaly ha with ha | rfl
        · rcases mem_addAnomaly ha with ha | rfl
          · exact ha
          · exact absurd hti
              (by rw [mkAnomaly_title, highMemoryPayload_title]; decide)
        · exact absurd hti
            (by rw [mkAnomaly_title, highErrorRatePayload_title]; decide)
      · rcases mem_addAnomaly ha with ha | rfl
        · exact ha
        · exact absurd hti
            (by rw [mkAnomaly_title, highErrorRatePayload_title]; decide)
      · rcases mem_addAnomaly ha with ha | rfl
        · exact ha
        · exact absurd hti
            (by rw [mkAnomaly_title, highMemoryPayload_title]; decide)
      · exact ha

/-- C5 witness: six snapshots with trailing memory readings
`[50, 60, 70, 80, 90]` produce the memory-trend anomaly. -/
theorem C5_memory_trend_witness :
    ∃ a ∈ detectSystemHealthAnomalies (some healthSix) "h0" "h1" "h2" 9 [],
      a.type = .capacity_issue ∧ a.title = "Memory Usage Trending Upward" ∧
      a.autoResolved = false ∧ a.current.memoryTrend = some 100 ∧
      a.deviation = 100 :=
  (C5_memory_trend healthSix healthSix snapshot90 "h0" "h1" "h2" 9 [] []).1
    rfl (by decide) (by decide) (by simp)

/-- C7 counterexample: the `systemHealth` dashboard label is not derived
from the trend-direction heuristic — with a performance score of 50 it is
`declining`, which no heuristic value can produce for a higher-is-better
metric since the heuristic is nonnegative. -/
theorem C7_counterexample : ¬ trendLabelsHeuristicDerived := by
  intro hclaim
  obtain ⟨-, -, -, v, hv⟩ := hclaim emptyPerf emptyBehavior healthScore50
  have hsys : (trendAnalysis emptyPerf emptyBehavior healthScore50).systemHealth =
      .declining := by decide
  rw [hsys] at hv
  exact labelOfTrend_true_ne_declining (trendDirection_nonneg v) hv.symm

/-- C7 (amended): the `performance` and `efficiency` labels come from the
asymmetric trend-heuristic mapping over the trailing three samples
(`averageDuration`, lower-is-better; operation `count`, higher-is-better);
the `userSatisfaction` label is constantly `stable` because the projected
`length` field does not exist on error-prone-path entries (read as 0); and
the `systemHealth` label is a plain threshold on the current performance
score (`> 80` improving, otherwise declining), not trend-derived. -/
theorem C7_trend_labels (pd : PerformanceAnalytics) (bd : UserBehaviorAnalytics)
    (hd : SystemHealthAnalytics) :
    (trendAnalysis pd bd hd).performance =
      (if pd.performanceTrends.length < 3 then .stable
       else labelOfTrend (calculateTrendDirection
         ((sliceLast 3 pd.performanceTrends).map (·.averageDuration))) false) ∧
    (trendAnalysis pd bd hd).efficiency =
      (if pd.operationFrequency.length < 3 then .stable
       else labelOfTrend (calculateTrendDirection
         ((sliceLast 3 pd.operationFrequency).map (·.count))) true) ∧
    (trendAnalysis pd bd hd).userSatisfaction = .stable ∧
    (trendAnalysis pd bd hd).systemHealth =
      (if hd.performanceScore > 80 then .improving else .declining) := by
  refine ⟨calculateTrendStatus_eq_labelOfTrend _ _ _,
    calculateTrendStatus_eq_labelOfTrend _ _ _, ?_, rfl⟩
  show calculateTrendStatus bd.errorPronePaths (fun _ => 0) false = .stable
  rw [calculateTrendStatus_eq_labelOfTrend]
  split_ifs with h
  · rfl
  · have hz : calculateTrendDirection
        ((sliceLast 3 bd.errorPronePaths).map fun _ => (0:ℚ)) = 0 := by
      unfold calculateTrendDirection
      split_ifs with h2
      · rfl
      · rw [countIncreases_map_const]
        simp
    rw [hz]
    unfold labelOfTrend
    norm_num

/-- C9: every engine operation preserves the caps of 50 insights,
100 anomalies and 30 recommendations; every collector operation leaves all
three metric series capped at 1000; and pruning always retains a suffix
(the newest entries), the dropped entries being the oldest prefix. -/
theorem C9_bounded_retention (s : EngineState) (c : CollectorState)
    (eop : EngineOp) (cop : CollectorOp) (hs : EngineInv s) :
    EngineInv (applyEngineOp s eop) ∧ CollectorInv (applyCollectorOp c cop) ∧
    ∀ (l : List AnomalyDetection) (n : ℕ),
      l.take (l.length - n) ++ pruneTo n l = l := by
  have collectorInv_pruneMetrics : ∀ c' : CollectorState,
      CollectorInv (pruneMetrics c') := by
    intro c'
    unfold CollectorInv pruneMetrics
    dsimp only
    refine ⟨?_, ?_, ?_⟩ <;> rw [length_pruneTo] <;> omega
  refine ⟨?_, ?_, fun l n => take_append_pruneTo n l⟩
  · obtain ⟨h1, h2, h3⟩ := hs
    cases eop with
    | anomalyPass pd bd hd ids now =>
      exact ⟨h1, runAnomalyDetection_length pd bd hd ids now h2, h3⟩
    | insightAdd p id now => exact ⟨addInsight_length_le h1, h2, h3⟩
    | insightCleanup now =>
      exact ⟨le_trans (List.length_filter_le _ _) h1, h2, h3⟩
    | recommendationAdd p id now =>
      exact ⟨h1, h2, addRecommendation_length_le h3⟩
    | recommendationCleanup now =>
      exact ⟨h1, h2, le_trans (List.length_filter_le _ _) h3⟩
    | resolve id now =>
      refine ⟨h1, ?_, h3⟩
      show (resolveAnomaly s.anomalies id now).length ≤ 100
      rw [resolveAnomaly_length]
      exact h2
    | markImplemented id now impact =>
      refine ⟨h1, h2, ?_⟩
      show (markRecommendationImplemented s.recommendations id now impact).length ≤ 30
      rw [markRecommendationImplemented_length]
      exact h3
  · cases cop with
    | record operation opId st et sm em res work =>
      exact collectorInv_pruneMetrics _
    | track action dur err device now => exact collectorInv_pruneMetrics _
    | health now history memory cacheHit => exact collectorInv_pruneMetrics _

/-- C9 witness: the invariant holds after a resolve operation and a
behavior-tracking operation from the empty states. -/
theorem C9_bounded_retention_witness :
    EngineInv (applyEngineOp {} (.resolve "a" 3)) ∧
    CollectorInv (applyCollectorOp {} (.track "click" 0 false
      { userAgent := "Mozilla", viewportWidth := 800, viewportHeight := 600 } 3)) ∧
    ∀ (l : List AnomalyDetection) (n : ℕ),
      l.take (l.length - n) ++ pruneTo n l = l :=
  C9_bounded_retention {} {} (.resolve "a" 3)
    (.track "click" 0 false
      { userAgent := "Mozilla", viewportWidth := 800, viewportHeight := 600 } 3)
    ⟨by decide, by decide, by decide⟩

/-- C10: the trend-direction heuristic always lies in `[0, 100]`, so the
`trend < −10` branch of `calculateTrendStatus` is dead: a lower-is-better
metric can never be labelled `improving` and a higher-is-better metric can
never be labelled `declining` through the trend-heuristic path. -/
theorem C10_trend_nonnegative (values : List ℚ) (data : List α) (f : α → ℚ) :
    (0 ≤ calculateTrendDirection values ∧ calculateTrendDirection values ≤ 100) ∧
    calculateTrendStatus data f false ≠ .improving ∧
    calculateTrendStatus data f true ≠ .declining :=
  ⟨⟨trendDirection_nonneg values, trendDirection_le_100 values⟩,
    trendStatus_false_ne_improving data f, trendStatus_true_ne_declining data f⟩

end DeWillemstad
